import Mathlib

/-!
Verification of the servoapi embedding adapter (src/lib.rs).

The development shallowly embeds the adapter's data model and operations:

* `u32` arithmetic is modelled as `Nat` with explicit overflow checks
  (`u32_mul`, `u32_sub` return `none` where the Rust computation would
  overflow or underflow).
* The `f32` HiDPI scale factor is modelled as `ℚ`; the Rust `as u32`
  cast (truncation toward zero, saturating) is `truncToU32`.
* `View` holds the geometry cell and the event queue; the GL handle and
  the event-loop riser are external capabilities and are threaded as
  explicit state where a claim needs them.
* Fallible external effects (channel send, directory lookup) are passed
  in as explicit outcomes.
-/

/-- The exclusive upper bound of `u32`. -/
def U32_LIMIT : Nat := 2 ^ 32

/-- A `u32` computation result: `some n` when `n` fits, `none` on overflow
(Rust debug-build panic). -/
def checkU32 (n : Nat) : Option Nat :=
  if n < U32_LIMIT then some n else none

/-- Checked `u32` multiplication. -/
def u32_mul (a b : Nat) : Option Nat := checkU32 (a * b)

/-- Checked `u32` subtraction: `none` models the underflow panic. -/
def u32_sub (a b : Nat) : Option Nat :=
  if b ≤ a then some (a - b) else none

/-- The Rust `as u32` cast of the `f32` HiDPI factor (modelled as `ℚ`):
truncation toward zero, saturating at the `u32` range. For the
non-negative factors the adapter works with, this is the floor. -/
def truncToU32 (q : ℚ) : Nat := min (⌊q⌋).toNat (U32_LIMIT - 1)

/-- `DrawableGeometry` from src/lib.rs: view size, margins
(top, right, bottom, left), position, HiDPI factor. -/
structure DrawableGeometry where
  view_size : Nat × Nat
  margins : Nat × Nat × Nat × Nat
  position : Int × Int
  hidpi_factor : ℚ
deriving DecidableEq

namespace servo_types

/-- Opaque engine-side key identifier (external type, payload only). -/
abbrev Key := Nat

/-- Opaque engine-side key-modifier set (external type, payload only). -/
abbrev KeyModifiers := Nat

/-- Opaque engine-side cursor kind (external type, payload only). -/
abbrev Cursor := Nat

/-- Opaque engine-side history entry (external type, payload only). -/
abbrev LoadData := String

/-- Opaque engine-side network error (external type, payload only). -/
abbrev NetError := Nat

/-- URL value; the adapter only carries it through, so it is kept as its
textual form. -/
abbrev ServoUrl := String

end servo_types

open servo_types

/-- `BrowserEvent` from src/lib.rs: the closed set of outbound
notifications. -/
inductive BrowserEvent where
  | SetWindowInnerSize (w h : Nat)
  | SetWindowPosition (x y : Int)
  | SetFullScreenState (state : Bool)
  | Present
  | TitleChanged (title : Option String)
  | UnhandledURL (url : ServoUrl)
  | StatusChanged (status : Option String)
  | LoadStart
  | LoadEnd
  | LoadError (url : String)
  | HeadParsed
  | HistoryChanged (entries : List LoadData) (current : Nat)
  | CursorChanged (cursor : Cursor)
  | FaviconChanged (url : ServoUrl)
  | Key (ch : Option Char) (key : servo_types.Key) (mods : KeyModifiers)
deriving DecidableEq

/-- `View` from src/lib.rs: the geometry cell and the event queue. The
`gl` handle and the boxed riser are external capabilities with no data
content relevant here. -/
structure View where
  geometry : DrawableGeometry
  event_queue : List BrowserEvent
deriving DecidableEq

/-- `View::new`: fresh view with the given geometry and an empty queue. -/
def View.new (geometry : DrawableGeometry) : View :=
  { geometry := geometry, event_queue := [] }

/-- `View::get_events`: drains the whole queue, returning its content in
arrival order and leaving the queue empty. -/
def View.get_events (v : View) : List BrowserEvent × View :=
  (v.event_queue, { v with event_queue := [] })

/-- `WindowMethods::framebuffer_size` for `View`: the HiDPI factor is cast
to `u32` (truncated) and multiplies each view dimension. -/
def View.framebuffer_size (g : DrawableGeometry) : Option (Nat × Nat) :=
  let scale_factor := truncToU32 g.hidpi_factor
  match u32_mul scale_factor g.view_size.1, u32_mul scale_factor g.view_size.2 with
  | some w, some h => some (w, h)
  | _, _ => none

/-- A `u32` device-pixel rectangle (origin, size). -/
structure WRect where
  origin : Nat × Nat
  size : Nat × Nat
deriving DecidableEq

/-- `WindowMethods::window_rect` for `View`: margins are scaled by the
truncated HiDPI factor, the scaled top+bottom are subtracted from the
framebuffer height and the scaled left+right from the framebuffer width,
and the origin is (scaled left, scaled top). Each `u32` operation is
checked, so a Rust panic (overflow/underflow) is `none`. -/
def View.window_rect (g : DrawableGeometry) : Option WRect :=
  let scale_factor := truncToU32 g.hidpi_factor
  match View.framebuffer_size g with
  | none => none
  | some (fw, fh) =>
    match u32_mul g.margins.1 scale_factor, u32_mul g.margins.2.1 scale_factor,
          u32_mul g.margins.2.2.1 scale_factor, u32_mul g.margins.2.2.2 scale_factor with
    | some t, some r, some b, some l =>
      match u32_sub fh t with
      | none => none
      | some h1 =>
        match u32_sub h1 b with
        | none => none
        | some h2 =>
          match u32_sub fw l with
          | none => none
          | some w1 =>
            match u32_sub w1 r with
            | none => none
            | some w2 => some { origin := (l, t), size := (w2, h2) }
    | _, _, _, _ => none

/-- `WindowMethods::size` for `View`: the logical view size. -/
def View.size (g : DrawableGeometry) : ℚ × ℚ :=
  ((g.view_size.1 : ℚ), (g.view_size.2 : ℚ))

/-- `WindowMethods::client_window` for `View`: view size and position. -/
def View.client_window (g : DrawableGeometry) : (Nat × Nat) × (Int × Int) :=
  (g.view_size, g.position)

/-- `WindowMethods::hidpi_factor` for `View`: the raw (fractional) factor. -/
def View.hidpi_factor (g : DrawableGeometry) : ℚ := g.hidpi_factor

/-- `WindowMethods::supports_clipboard` for `View`: always unsupported. -/
def View.supports_clipboard (_v : View) : Bool := false

/-- `WindowMethods::set_inner_size`: queue a `SetWindowInnerSize` event. -/
def View.set_inner_size (v : View) (w h : Nat) : View :=
  { v with event_queue := v.event_queue ++ [BrowserEvent.SetWindowInnerSize w h] }

/-- `WindowMethods::set_position`: queue a `SetWindowPosition` event. -/
def View.set_position (v : View) (x y : Int) : View :=
  { v with event_queue := v.event_queue ++ [BrowserEvent.SetWindowPosition x y] }

/-- `WindowMethods::set_fullscreen_state`: queue a `SetFullScreenState`
event. -/
def View.set_fullscreen_state (v : View) (state : Bool) : View :=
  { v with event_queue := v.event_queue ++ [BrowserEvent.SetFullScreenState state] }

/-- `WindowMethods::present`: queue a `Present` event. -/
def View.present (v : View) : View :=
  { v with event_queue := v.event_queue ++ [BrowserEvent.Present] }

/-- `WindowMethods::set_page_title`: queue a `TitleChanged` event. -/
def View.set_page_title (v : View) (title : Option String) : View :=
  { v with event_queue := v.event_queue ++ [BrowserEvent.TitleChanged title] }

/-- `WindowMethods::status`: queue a `StatusChanged` event. -/
def View.status (v : View) (s : Option String) : View :=
  { v with event_queue := v.event_queue ++ [BrowserEvent.StatusChanged s] }

/-- `WindowMethods::load_start`: queue a `LoadStart` event. -/
def View.load_start (v : View) : View :=
  { v with event_queue := v.event_queue ++ [BrowserEvent.LoadStart] }

/-- `WindowMethods::load_end`: queue a `LoadEnd` event. -/
def View.load_end (v : View) : View :=
  { v with event_queue := v.event_queue ++ [BrowserEvent.LoadEnd] }

/-- `WindowMethods::load_error`: the net error is dropped, the URL is
queued in a `LoadError` event. -/
def View.load_error (v : View) (_e : NetError) (url : String) : View :=
  { v with event_queue := v.event_queue ++ [BrowserEvent.LoadError url] }

/-- `WindowMethods::head_parsed`: queue a `HeadParsed` event. -/
def View.head_parsed (v : View) : View :=
  { v with event_queue := v.event_queue ++ [BrowserEvent.HeadParsed] }

/-- `WindowMethods::history_changed`: queue a `HistoryChanged` event. -/
def View.history_changed (v : View) (entries : List LoadData) (current : Nat) : View :=
  { v with event_queue := v.event_queue ++ [BrowserEvent.HistoryChanged entries current] }

/-- `WindowMethods::set_cursor`: queue a `CursorChanged` event. -/
def View.set_cursor (v : View) (cursor : Cursor) : View :=
  { v with event_queue := v.event_queue ++ [BrowserEvent.CursorChanged cursor] }

/-- `WindowMethods::set_favicon`: queue a `FaviconChanged` event. -/
def View.set_favicon (v : View) (url : ServoUrl) : View :=
  { v with event_queue := v.event_queue ++ [BrowserEvent.FaviconChanged url] }

/-- `WindowMethods::handle_key`: queue a `Key` event. -/
def View.handle_key (v : View) (ch : Option Char) (key : servo_types.Key)
    (mods : KeyModifiers) : View :=
  { v with event_queue := v.event_queue ++ [BrowserEvent.Key ch key mods] }

/-- `WindowMethods::allow_navigation` for `View`: the URL is ignored and
the navigation decision is `true`, with no state change (`&self`, no
queue access). -/
def View.allow_navigation (v : View) (_url : ServoUrl) : View × Bool :=
  (v, true)

/-- The host GL context as seen by the adapter: whether it is current. -/
structure GLContext where
  current : Bool
deriving DecidableEq

/-- `WindowMethods::prepare_for_composite` for `View`: the body is the
literal `true`; no GL call is made, so the context state passes through
untouched. -/
def View.prepare_for_composite (ctx : GLContext) (_width _height : Nat) :
    GLContext × Bool :=
  (ctx, true)

/-- One engine-to-host notification callback invocation, with its
payload. Covers every queue-appending `WindowMethods` callback. -/
inductive Notification where
  | set_inner_size (w h : Nat)
  | set_position (x y : Int)
  | set_fullscreen_state (state : Bool)
  | present
  | set_page_title (title : Option String)
  | status (s : Option String)
  | load_start
  | load_end
  | load_error (e : NetError) (url : String)
  | head_parsed
  | history_changed (entries : List LoadData) (current : Nat)
  | set_cursor (cursor : Cursor)
  | set_favicon (url : ServoUrl)
  | handle_key (ch : Option Char) (key : servo_types.Key) (mods : KeyModifiers)
deriving DecidableEq

/-- Invoke one notification callback on the view. -/
def View.dispatch (v : View) : Notification → View
  | Notification.set_inner_size w h => v.set_inner_size w h
  | Notification.set_position x y => v.set_position x y
  | Notification.set_fullscreen_state state => v.set_fullscreen_state state
  | Notification.present => v.present
  | Notification.set_page_title title => v.set_page_title title
  | Notification.status s => v.status s
  | Notification.load_start => v.load_start
  | Notification.load_end => v.load_end
  | Notification.load_error e url => v.load_error e url
  | Notification.head_parsed => v.head_parsed
  | Notification.history_changed entries current => v.history_changed entries current
  | Notification.set_cursor cursor => v.set_cursor cursor
  | Notification.set_favicon url => v.set_favicon url
  | Notification.handle_key ch key mods => v.handle_key ch key mods

/-- The `BrowserEvent` a notification callback constructs. -/
def Notification.toEvent : Notification → BrowserEvent
  | Notification.set_inner_size w h => BrowserEvent.SetWindowInnerSize w h
  | Notification.set_position x y => BrowserEvent.SetWindowPosition x y
  | Notification.set_fullscreen_state state => BrowserEvent.SetFullScreenState state
  | Notification.present => BrowserEvent.Present
  | Notification.set_page_title title => BrowserEvent.TitleChanged title
  | Notification.status s => BrowserEvent.StatusChanged s
  | Notification.load_start => BrowserEvent.LoadStart
  | Notification.load_end => BrowserEvent.LoadEnd
  | Notification.load_error _ url => BrowserEvent.LoadError url
  | Notification.head_parsed => BrowserEvent.HeadParsed
  | Notification.history_changed entries current => BrowserEvent.HistoryChanged entries current
  | Notification.set_cursor cursor => BrowserEvent.CursorChanged cursor
  | Notification.set_favicon url => BrowserEvent.FaviconChanged url
  | Notification.handle_key ch key mods => BrowserEvent.Key ch key mods

/-- Invoke a sequence of notification callbacks, in order. -/
def View.applyAll (v : View) (ns : List Notification) : View :=
  ns.foldl View.dispatch v

/-- Actions visible on the engine thread during a
`SynchroCompositorProxy::send` call. -/
inductive EngineAction where
  | warn (msg : String)
  | rise
  | panic
deriving DecidableEq

/-- `SynchroCompositorProxy::send` from src/lib.rs, as the trace of
actions it performs given the outcome of the internal channel send: a
failed delivery is logged with `warn!` and otherwise ignored, then the
riser is risen. -/
def SynchroCompositorProxy.send (sendResult : Except String Unit) : List EngineAction :=
  (match sendResult with
   | Except.error err => [EngineAction.warn ("Failed to send response (" ++ err ++ ").")]
   | Except.ok _ => []) ++ [EngineAction.rise]

/-- `Constellation` from src/lib.rs (a unit struct). -/
structure Constellation

/-- Process environment visible to `Constellation::new`: the current
working directory and whether `servo_resources/` exists under it. -/
structure Env where
  cwd : String
  servo_resources_exists : Bool

/-- Global engine options (the fields `Constellation::new` touches). -/
structure Opts where
  headless : Bool
  url : Option ServoUrl
deriving DecidableEq

/-- Process-wide engine configuration mutated by `Constellation::new`:
the resources path, the default opts, and the `layout.threads` pref. -/
structure GlobalState where
  resources_path : Option String
  opts : Option Opts
  layout_threads_pref : Option ℚ
deriving DecidableEq

/-- `ServoUrl::parse` on a well-formed absolute URL (external parser;
the adapter only stores the result). -/
def ServoUrl_parse (s : String) : Option ServoUrl := some s

/-- `Constellation::new` from src/lib.rs: fails when `servo_resources/`
is missing under the current directory; otherwise records the resources
path, sets the default opts with `headless = false` and the start URL,
sets the `layout.threads` pref to 1, and returns a `Constellation`.
`default_opts` is the external `opts::default_opts()` value. -/
def Constellation.new (default_opts : Opts) (env : Env) (st : GlobalState) :
    Except String (GlobalState × Constellation) :=
  if env.servo_resources_exists then
    Except.ok
      ({ st with
          resources_path := some (env.cwd ++ ("servo_resources/")),
          opts := some { default_opts with
                          headless := false,
                          url := ServoUrl_parse ("https://servo.org") },
          layout_threads_pref := some 1 },
       Constellation.mk)
  else
    Except.error ("Can\x27t find servo_resources/ directory")

/-- The bootstrap error message of `Constellation::new`. -/
def missing_resources_msg : String := "Can\x27t find servo_resources/ directory"

/-- The geometry of the spec scenario: `view_size=(800,600)`,
`margins=(20,0,0,0)`, `hidpi_factor=2.0`. -/
def geo_hidpi2 : DrawableGeometry :=
  { view_size := (800, 600), margins := (20, 0, 0, 0),
    position := (0, 0), hidpi_factor := 2 }

/-- A geometry with the non-integer HiDPI factor 1.5. -/
def geo_hidpi15 : DrawableGeometry :=
  { view_size := (800, 600), margins := (0, 0, 0, 0),
    position := (0, 0), hidpi_factor := 3 / 2 }

/-- The same geometry as `geo_hidpi15` with HiDPI factor 1. -/
def geo_hidpi1 : DrawableGeometry :=
  { view_size := (800, 600), margins := (0, 0, 0, 0),
    position := (0, 0), hidpi_factor := 1 }

/-- A geometry with a fractional HiDPI factor below 1. -/
def geo_half : DrawableGeometry :=
  { view_size := (800, 600), margins := (0, 0, 0, 0),
    position := (0, 0), hidpi_factor := 1 / 2 }

/-- A geometry whose scaled top margin exceeds the framebuffer height:
`view_size=(10,10)`, top margin 20, `hidpi_factor=1.0`. -/
def geo_underflow : DrawableGeometry :=
  { view_size := (10, 10), margins := (20, 0, 0, 0),
    position := (0, 0), hidpi_factor := 1 }

/-- An example URL value. -/
def url_example : ServoUrl := "https://example.com"

/-- Modelled from the spec wording of the `window_rect` computation:
"scale margins by the integer-truncated HiDPI factor, subtract
top+bottom from framebuffer height and left+right from framebuffer
width, and offset the origin by (left, top)", stated over `ℤ` so no
truncation hides an underflow. Takes the framebuffer dimensions as
inputs. -/
def window_rect_recipe (g : DrawableGeometry) (fw fh : Nat) :
    (Int × Int) × (Int × Int) :=
  let s : Int := (truncToU32 g.hidpi_factor : Int)
  let t : Int := (g.margins.1 : Int) * s
  let r : Int := (g.margins.2.1 : Int) * s
  let b : Int := (g.margins.2.2.1 : Int) * s
  let l : Int := (g.margins.2.2.2 : Int) * s
  ((l, t), ((fw : Int) - l - r, (fh : Int) - t - b))

/-- Modelled from the spec claim that `framebuffer_size` scales the view
size by the fractional (non-truncated) HiDPI factor. -/
def framebuffer_size_fracSpec (g : DrawableGeometry) : ℚ × ℚ :=
  (g.hidpi_factor * (g.view_size.1 : ℚ), g.hidpi_factor * (g.view_size.2 : ℚ))

/-- Modelled from the spec wording for `allow_navigation`: "the adapter's
only job is to enqueue the request with its reply channel intact, never
to answer on the host's behalf" — the queue grows by one navigation
request. Compared against the source `View.allow_navigation`. -/
def allow_navigation_enqueueSpec (v : View) (url : ServoUrl) : View :=
  { v with event_queue := v.event_queue ++ [BrowserEvent.UnhandledURL url] }

/- ------------------------------------------------------------------ -/
/- Theorems -/
/- ------------------------------------------------------------------ -/

/-- Evaluation rule for the saturating truncation at in-range values. -/
theorem truncToU32_of_bounds (q : ℚ) (n : Nat) (hle : (n : ℚ) ≤ q)
    (hlt : q < (n : ℚ) + 1) (hn : n < U32_LIMIT) : truncToU32 q = n := by
  have hf : ⌊q⌋ = (n : ℤ) := by
    rw [Int.floor_eq_iff]
    · exact ⟨by exact_mod_cast hle, by push_cast; exact hlt⟩
  have hn' : (⌊q⌋).toNat = n := by rw [hf]; exact Int.toNat_natCast n
  unfold truncToU32
  rw [hn']
  have : n ≤ U32_LIMIT - 1 := by unfold U32_LIMIT at hn ⊢; omega
  exact Nat.min_eq_left this

/-- The truncation at 3/2 is 1. -/
theorem truncToU32_three_halves : truncToU32 (3 / 2 : ℚ) = 1 :=
  truncToU32_of_bounds _ 1 (by norm_num) (by norm_num) (by norm_num [U32_LIMIT])

/-- The truncation at 1 is 1. -/
theorem truncToU32_one : truncToU32 (1 : ℚ) = 1 := by decide

/-- `u32_mul` characterization. -/
theorem u32_mul_eq_some {a b c : Nat} :
    u32_mul a b = some c ↔ a * b < U32_LIMIT ∧ c = a * b := by
  unfold u32_mul checkU32
  by_cases h : a * b < U32_LIMIT <;> simp [h] <;> omega

/-- `u32_sub` characterization. -/
theorem u32_sub_eq_some {a b c : Nat} :
    u32_sub a b = some c ↔ b ≤ a ∧ c = a - b := by
  unfold u32_sub
  by_cases h : b ≤ a <;> simp [h] <;> omega

/-- `framebuffer_size` characterization: the result is the truncated
factor times each view dimension, both fitting in `u32`. -/
theorem framebuffer_size_eq_some {g : DrawableGeometry} {fw fh : Nat} :
    View.framebuffer_size g = some (fw, fh) ↔
      fw = truncToU32 g.hidpi_factor * g.view_size.1 ∧
      fh = truncToU32 g.hidpi_factor * g.view_size.2 ∧
      fw < U32_LIMIT ∧ fh < U32_LIMIT := by
  unfold View.framebuffer_size u32_mul checkU32
  by_cases h1 : truncToU32 g.hidpi_factor * g.view_size.1 < U32_LIMIT <;>
    by_cases h2 : truncToU32 g.hidpi_factor * g.view_size.2 < U32_LIMIT <;>
      simp [h1, h2] <;> omega

/-- Construction rule for `window_rect`: when the scaled margins fit
inside the framebuffer, no `u32` operation fails and the rectangle has
origin (scaled left, scaled top) and the reduced size. -/
theorem window_rect_eq_of_margins_fit (g : DrawableGeometry) (fw fh : Nat)
    (hfb : View.framebuffer_size g = some (fw, fh))
    (hh : g.margins.1 * truncToU32 g.hidpi_factor +
          g.margins.2.2.1 * truncToU32 g.hidpi_factor ≤ fh)
    (hw : g.margins.2.2.2 * truncToU32 g.hidpi_factor +
          g.margins.2.1 * truncToU32 g.hidpi_factor ≤ fw) :
    View.window_rect g = some
      { origin := (g.margins.2.2.2 * truncToU32 g.hidpi_factor,
                   g.margins.1 * truncToU32 g.hidpi_factor),
        size := (fw - g.margins.2.2.2 * truncToU32 g.hidpi_factor
                    - g.margins.2.1 * truncToU32 g.hidpi_factor,
                 fh - g.margins.1 * truncToU32 g.hidpi_factor
                    - g.margins.2.2.1 * truncToU32 g.hidpi_factor) } := by
  have hlim := (framebuffer_size_eq_some.mp hfb).2.2
  have hm1 : u32_mul g.margins.1 (truncToU32 g.hidpi_factor) =
      some (g.margins.1 * truncToU32 g.hidpi_factor) :=
    u32_mul_eq_some.mpr ⟨by omega, rfl⟩
  have hm2 : u32_mul g.margins.2.1 (truncToU32 g.hidpi_factor) =
      some (g.margins.2.1 * truncToU32 g.hidpi_factor) :=
    u32_mul_eq_some.mpr ⟨by omega, rfl⟩
  have hm3 : u32_mul g.margins.2.2.1 (truncToU32 g.hidpi_factor) =
      some (g.margins.2.2.1 * truncToU32 g.hidpi_factor) :=
    u32_mul_eq_some.mpr ⟨by omega, rfl⟩
  have hm4 : u32_mul g.margins.2.2.2 (truncToU32 g.hidpi_factor) =
      some (g.margins.2.2.2 * truncToU32 g.hidpi_factor) :=
    u32_mul_eq_some.mpr ⟨by omega, rfl⟩
  have hs1 : u32_sub fh (g.margins.1 * truncToU32 g.hidpi_factor) =
      some (fh - g.margins.1 * truncToU32 g.hidpi_factor) :=
    u32_sub_eq_some.mpr ⟨by omega, rfl⟩
  have hs2 : u32_sub (fh - g.margins.1 * truncToU32 g.hidpi_factor)
      (g.margins.2.2.1 * truncToU32 g.hidpi_factor) =
      some (fh - g.margins.1 * truncToU32 g.hidpi_factor
               - g.margins.2.2.1 * truncToU32 g.hidpi_factor) :=
    u32_sub_eq_some.mpr ⟨by omega, rfl⟩
  have hs3 : u32_sub fw (g.margins.2.2.2 * truncToU32 g.hidpi_factor) =
      some (fw - g.margins.2.2.2 * truncToU32 g.hidpi_factor) :=
    u32_sub_eq_some.mpr ⟨by omega, rfl⟩
  have hs4 : u32_sub (fw - g.margins.2.2.2 * truncToU32 g.hidpi_factor)
      (g.margins.2.1 * truncToU32 g.hidpi_factor) =
      some (fw - g.margins.2.2.2 * truncToU32 g.hidpi_factor
               - g.margins.2.1 * truncToU32 g.hidpi_factor) :=
    u32_sub_eq_some.mpr ⟨by omega, rfl⟩
  simp only [View.window_rect, hfb, hm1, hm2, hm3, hm4, hs1, hs2, hs3, hs4]

/-- Elimination rule for `window_rect`: a successful result decomposes
into the framebuffer size, the in-range scaled margins, and the
rectangle they determine. -/
theorem window_rect_some_elim (g : DrawableGeometry) (wr : WRect)
    (h : View.window_rect g = some wr) :
    ∃ fw fh, View.framebuffer_size g = some (fw, fh) ∧
      g.margins.1 * truncToU32 g.hidpi_factor ≤ fh ∧
      g.margins.2.2.1 * truncToU32 g.hidpi_factor ≤
        fh - g.margins.1 * truncToU32 g.hidpi_factor ∧
      g.margins.2.2.2 * truncToU32 g.hidpi_factor ≤ fw ∧
      g.margins.2.1 * truncToU32 g.hidpi_factor ≤
        fw - g.margins.2.2.2 * truncToU32 g.hidpi_factor ∧
      wr = { origin := (g.margins.2.2.2 * truncToU32 g.hidpi_factor,
                        g.margins.1 * truncToU32 g.hidpi_factor),
             size := (fw - g.margins.2.2.2 * truncToU32 g.hidpi_factor
                         - g.margins.2.1 * truncToU32 g.hidpi_factor,
                      fh - g.margins.1 * truncToU32 g.hidpi_factor
                         - g.margins.2.2.1 * truncToU32 g.hidpi_factor) } := by
  unfold View.window_rect at h
  simp only [] at h
  cases hfb : View.framebuffer_size g with
  | none => rw [hfb] at h; simp at h
  | some p =>
    obtain ⟨fw, fh⟩ := p
    rw [hfb] at h
    simp only [] at h
    refine ⟨fw, fh, rfl, ?_⟩
    cases hm1 : u32_mul g.margins.1 (truncToU32 g.hidpi_factor) with
    | none => simp [hm1] at h
    | some t =>
    cases hm2 : u32_mul g.margins.2.1 (truncToU32 g.hidpi_factor) with
    | none => simp [hm1, hm2] at h
    | some r =>
    cases hm3 : u32_mul g.margins.2.2.1 (truncToU32 g.hidpi_factor) with
    | none => simp [hm1, hm2, hm3] at h
    | some b =>
    cases hm4 : u32_mul g.margins.2.2.2 (truncToU32 g.hidpi_factor) with
    | none => simp [hm1, hm2, hm3, hm4] at h
    | some l =>
    simp only [hm1, hm2, hm3, hm4] at h
    obtain ⟨-, ht⟩ := u32_mul_eq_some.mp hm1
    obtain ⟨-, hr⟩ := u32_mul_eq_some.mp hm2
    obtain ⟨-, hb⟩ := u32_mul_eq_some.mp hm3
    obtain ⟨-, hl⟩ := u32_mul_eq_some.mp hm4
    subst ht hr hb hl
    cases hsub1 : u32_sub fh (g.margins.1 * truncToU32 g.hidpi_factor) with
    | none => rw [hsub1] at h; simp at h
    | some h1 =>
    simp only [hsub1] at h
    obtain ⟨hle1, hh1⟩ := u32_sub_eq_some.mp hsub1
    subst hh1
    cases hsub2 : u32_sub (fh - g.margins.1 * truncToU32 g.hidpi_factor)
        (g.margins.2.2.1 * truncToU32 g.hidpi_factor) with
    | none => rw [hsub2] at h; simp at h
    | some h2 =>
    simp only [hsub2] at h
    obtain ⟨hle2, hh2⟩ := u32_sub_eq_some.mp hsub2
    subst hh2
    cases hsub3 : u32_sub fw (g.margins.2.2.2 * truncToU32 g.hidpi_factor) with
    | none => rw [hsub3] at h; simp at h
    | some w1 =>
    simp only [hsub3] at h
    obtain ⟨hle3, hw1⟩ := u32_sub_eq_some.mp hsub3
    subst hw1
    cases hsub4 : u32_sub (fw - g.margins.2.2.2 * truncToU32 g.hidpi_factor)
        (g.margins.2.1 * truncToU32 g.hidpi_factor) with
    | none => rw [hsub4] at h; simp at h
    | some w2 =>
    simp only [hsub4] at h
    obtain ⟨hle4, hw2⟩ := u32_sub_eq_some.mp hsub4
    subst hw2
    simp only [Option.some.injEq] at h
    exact ⟨hle1, hle2, hle3, hle4, h.symm⟩

/-- Helper: each notification callback appends exactly its event. -/
theorem dispatch_queue_eq (v : View) (n : Notification) :
    (View.dispatch v n).event_queue = v.event_queue ++ [n.toEvent] := by
  cases n <;> rfl

/-- Helper: a callback sequence appends its events in invocation order. -/
theorem applyAll_queue_eq (ns : List Notification) :
    ∀ v : View, (View.applyAll v ns).event_queue =
      v.event_queue ++ ns.map Notification.toEvent := by
  induction ns with
  | nil => intro v; simp [View.applyAll]
  | cons n ns ih =>
    intro v
    show (View.applyAll (View.dispatch v n) ns).event_queue = _
    rw [ih, dispatch_queue_eq]
    simp

/-- Claim C1: after any sequence of notification callbacks on a fresh
view, `get_events` returns exactly those events in invocation order, the
queue is empty after the call, and an immediately following second
`get_events` returns the empty sequence. -/
theorem get_events_drains_in_order (g : DrawableGeometry) (ns : List Notification) :
    (View.applyAll (View.new g) ns).get_events.1 = ns.map Notification.toEvent ∧
    (View.applyAll (View.new g) ns).get_events.2.event_queue = [] ∧
    (View.applyAll (View.new g) ns).get_events.2.get_events.1 = [] := by
  refine ⟨?_, rfl, rfl⟩
  show (View.applyAll (View.new g) ns).event_queue = _
  rw [applyAll_queue_eq]
  simp [View.new]

/-- Claim C2: whenever `window_rect` succeeds it equals the spec recipe
(margins scaled by the integer-truncated HiDPI factor, scaled top+bottom
subtracted from the framebuffer height and scaled left+right from the
framebuffer width, origin at (scaled left, scaled top)); in the scenario
`view_size=(800,600)`, `margins=(20,0,0,0)`, `hidpi_factor=2.0` the
framebuffer is `(1600,1200)` and the rectangle has origin `(0,40)` and
size `(1600,1160)`. -/
theorem window_rect_matches_recipe :
    (∀ (g : DrawableGeometry) (fw fh : Nat) (wr : WRect),
       View.framebuffer_size g = some (fw, fh) →
       View.window_rect g = some wr →
       (((wr.origin.1 : Int), (wr.origin.2 : Int)),
        ((wr.size.1 : Int), (wr.size.2 : Int))) = window_rect_recipe g fw fh) ∧
    View.framebuffer_size geo_hidpi2 = some (1600, 1200) ∧
    View.window_rect geo_hidpi2 = some { origin := (0, 40), size := (1600, 1160) } := by
  refine ⟨?_, by decide, by decide⟩
  intro g fw fh wr hfb hwr
  obtain ⟨fw', fh', hfb', hle1, hle2, hle3, hle4, hwr'⟩ := window_rect_some_elim g wr hwr
  rw [hfb'] at hfb
  obtain ⟨hfw, hfh⟩ : fw' = fw ∧ fh' = fh := by simpa using hfb
  subst hfw hfh hwr'
  simp only [window_rect_recipe, Prod.mk.injEq]
  refine ⟨⟨?_, ?_⟩, ?_, ?_⟩ <;>
    push_cast [Nat.cast_sub hle1, Nat.cast_sub hle2, Nat.cast_sub hle3, Nat.cast_sub hle4] <;>
    ring

/-- Claim C2 witness: the recipe evaluated at the spec scenario. -/
theorem window_rect_matches_recipe_witness :
    ((((0 : Nat) : Int), ((40 : Nat) : Int)),
     (((1600 : Nat) : Int), ((1160 : Nat) : Int))) =
      window_rect_recipe geo_hidpi2 1600 1200 :=
  window_rect_matches_recipe.1 geo_hidpi2 1600 1200
    { origin := (0, 40), size := (1600, 1160) } (by decide) (by decide)

/-- Claim C3 counterexample: at HiDPI factor 1.5 the framebuffer size is
computed with the truncated factor 1, giving (800,600) — not the
fractional-factor value (1200,900) the claim asserts. -/
theorem framebuffer_size_not_fractional :
    View.framebuffer_size geo_hidpi15 = some (800, 600) ∧
    framebuffer_size_fracSpec geo_hidpi15 = (1200, 900) ∧
    ¬ (Option.map (fun p : Nat × Nat => ((p.1 : ℚ), (p.2 : ℚ)))
        (View.framebuffer_size geo_hidpi15) =
          some (framebuffer_size_fracSpec geo_hidpi15)) := by
  have h : View.framebuffer_size geo_hidpi15 = some (800, 600) := by
    rw [framebuffer_size_eq_some]
    simp [geo_hidpi15, truncToU32_three_halves, U32_LIMIT]
  refine ⟨h, ?_, ?_⟩
  · simp only [framebuffer_size_fracSpec, geo_hidpi15, Prod.mk.injEq]
    norm_num
  · rw [h]
    simp only [framebuffer_size_fracSpec, geo_hidpi15, Option.map_some, Option.some.injEq,
      Prod.mk.injEq]
    norm_num

/-- Claim C3 amended: both `framebuffer_size` and `window_rect` use the
integer-truncated HiDPI factor — two geometries agreeing on view size,
margins and the truncation of their HiDPI factors produce identical
results, so no computation reflects the fractional factor. -/
theorem geometry_scaling_truncates (g g' : DrawableGeometry)
    (hv : g.view_size = g'.view_size) (hm : g.margins = g'.margins)
    (hs : truncToU32 g.hidpi_factor = truncToU32 g'.hidpi_factor) :
    View.framebuffer_size g = View.framebuffer_size g' ∧
    View.window_rect g = View.window_rect g' := by
  have hfb : View.framebuffer_size g = View.framebuffer_size g' := by
    simp only [View.framebuffer_size, hv, hs]
  exact ⟨hfb, by simp only [View.window_rect, hfb, hm, hs]⟩

/-- Claim C3 amended witness: HiDPI 1.5 and HiDPI 1 give the same
geometry results. -/
theorem geometry_scaling_truncates_witness :
    View.framebuffer_size geo_hidpi15 = View.framebuffer_size geo_hidpi1 ∧
    View.window_rect geo_hidpi15 = View.window_rect geo_hidpi1 :=
  geometry_scaling_truncates geo_hidpi15 geo_hidpi1 rfl rfl
    (truncToU32_three_halves.trans truncToU32_one.symm)

/-- Claim C4 counterexample: `allow_navigation` enqueues nothing (the
queue stays empty, unlike the enqueue behaviour the claim requires) and
itself answers the navigation decision with `true`. -/
theorem allow_navigation_counterexample :
    (View.allow_navigation (View.new geo_hidpi2) url_example).1.event_queue = [] ∧
    (View.allow_navigation (View.new geo_hidpi2) url_example).2 = true ∧
    View.allow_navigation (View.new geo_hidpi2) url_example ≠
      (allow_navigation_enqueueSpec (View.new geo_hidpi2) url_example, true) := by
  refine ⟨rfl, rfl, ?_⟩
  decide

/-- Claim C4 amended: `allow_navigation` ignores the URL, leaves the view
and its queue untouched, and answers the navigation decision itself,
returning `true` for every URL. -/
theorem allow_navigation_unconditionally_true (v : View) (url : ServoUrl) :
    View.allow_navigation v url = (v, true) := rfl

/-- Claim C5: when the scaled margins are strictly smaller than the
framebuffer dimensions, no unsigned subtraction in `window_rect`
underflows and the returned rectangle is contained in the framebuffer
rectangle at the origin. -/
theorem window_rect_contained (g : DrawableGeometry) (fw fh : Nat)
    (hfb : View.framebuffer_size g = some (fw, fh))
    (hh : g.margins.1 * truncToU32 g.hidpi_factor +
          g.margins.2.2.1 * truncToU32 g.hidpi_factor < fh)
    (hw : g.margins.2.2.2 * truncToU32 g.hidpi_factor +
          g.margins.2.1 * truncToU32 g.hidpi_factor < fw) :
    ∃ wr, View.window_rect g = some wr ∧
      wr.origin.1 + wr.size.1 ≤ fw ∧ wr.origin.2 + wr.size.2 ≤ fh := by
  refine ⟨_, window_rect_eq_of_margins_fit g fw fh hfb (by omega) (by omega), ?_, ?_⟩ <;>
    dsimp <;> omega

/-- Claim C5 witness: containment at the spec scenario geometry. -/
theorem window_rect_contained_witness :
    ∃ wr, View.window_rect geo_hidpi2 = some wr ∧
      wr.origin.1 + wr.size.1 ≤ 1600 ∧ wr.origin.2 + wr.size.2 ≤ 1200 :=
  window_rect_contained geo_hidpi2 1600 1200 (by decide) (by decide) (by decide)

/-- Claim C6 counterexample: `prepare_for_composite` returns `true` while
the GL context was not made current (the context state is untouched), so
its result does not track a make-current attempt. -/
theorem prepare_for_composite_counterexample :
    (View.prepare_for_composite { current := false } 800 600).2 = true ∧
    (View.prepare_for_composite { current := false } 800 600).1.current = false :=
  ⟨rfl, rfl⟩

/-- Claim C6 amended: `prepare_for_composite` is a stub: it performs no
GL operation (the context passes through unchanged) and returns `true`
unconditionally. -/
theorem prepare_for_composite_constant_true (ctx : GLContext) (w h : Nat) :
    View.prepare_for_composite ctx w h = (ctx, true) := rfl

/-- Claim C7: `Constellation::new` fails exactly when `servo_resources/`
is absent under the working directory (with the missing-directory
error); on success it records the resources path, disables headless mode
and sets the layout thread-pool pref, returning a `Constellation`. -/
theorem constellation_new_spec (d : Opts) (env : Env) (st : GlobalState) :
    ((Constellation.new d env st).isOk = true ↔ env.servo_resources_exists = true) ∧
    (env.servo_resources_exists = false →
      Constellation.new d env st = Except.error missing_resources_msg) ∧
    (∀ (st' : GlobalState) (c : Constellation),
      Constellation.new d env st = Except.ok (st', c) →
      st'.opts = some { d with headless := false,
                               url := ServoUrl_parse ("https://servo.org") } ∧
      st'.layout_threads_pref = some 1 ∧
      st'.resources_path = some (env.cwd ++ ("servo_resources/"))) := by
  cases hex : env.servo_resources_exists <;>
    simp [Constellation.new, hex, missing_resources_msg, Except.isOk, Except.toBool]

/-- Claim C7 witness: with the directory present construction succeeds;
with it absent the missing-directory error is returned. -/
theorem constellation_new_spec_witness :
    (Constellation.new { headless := true, url := none }
        { cwd := "", servo_resources_exists := true }
        { resources_path := none, opts := none, layout_threads_pref := none }).isOk
      = true ∧
    Constellation.new { headless := true, url := none }
        { cwd := "", servo_resources_exists := false }
        { resources_path := none, opts := none, layout_threads_pref := none } =
      Except.error missing_resources_msg :=
  ⟨(constellation_new_spec ⟨true, none⟩ ⟨"", true⟩ ⟨none, none, none⟩).1.mpr rfl,
   (constellation_new_spec ⟨true, none⟩ ⟨"", false⟩ ⟨none, none, none⟩).2.1 rfl⟩

/-- Claim C8: `SynchroCompositorProxy::send` never panics and never
propagates a delivery failure — a failed send only logs a warning — and
it rises the waker exactly once whether or not delivery succeeded. -/
theorem send_never_panics_and_rises_once (sendResult : Except String Unit) :
    EngineAction.panic ∉ SynchroCompositorProxy.send sendResult ∧
    (SynchroCompositorProxy.send sendResult).count EngineAction.rise = 1 := by
  cases sendResult <;> simp [SynchroCompositorProxy.send]

/-- Claim C9: with a HiDPI factor strictly between 0 and 1, the cast to
`u32` truncates the factor to 0, so `framebuffer_size` is (0,0). -/
theorem framebuffer_size_zero_of_fractional_factor (g : DrawableGeometry)
    (h0 : 0 < g.hidpi_factor) (h1 : g.hidpi_factor < 1) :
    View.framebuffer_size g = some (0, 0) := by
  have hs : truncToU32 g.hidpi_factor = 0 :=
    truncToU32_of_bounds _ 0 (by exact_mod_cast h0.le) (by simpa using h1)
      (by norm_num [U32_LIMIT])
  rw [framebuffer_size_eq_some]
  simp [hs, U32_LIMIT]

/-- Claim C9 witness: at HiDPI factor 1/2 on an 800×600 view the
framebuffer is (0,0). -/
theorem framebuffer_size_zero_of_fractional_factor_witness :
    View.framebuffer_size geo_half = some (0, 0) :=
  framebuffer_size_zero_of_fractional_factor geo_half (by norm_num [geo_half])
    (by norm_num [geo_half])

/-- Claim C10: `window_rect` clamps nothing: with `view_size=(10,10)`,
top margin 20 and HiDPI factor 1 the framebuffer is (10,10) and the
unsigned subtraction of the scaled top margin underflows, so
`window_rect` has no value (the Rust computation panics). -/
theorem window_rect_underflows_on_large_margins :
    View.framebuffer_size geo_underflow = some (10, 10) ∧
    View.window_rect geo_underflow = none := by decide
